import Mathlib

/-!
Shallow embedding of `src/mcp_server.py` (a FastAPI market-data proxy over
the ccxt exchange client) and proofs of the specification claims about it.

Modelling conventions:
* Python floats (prices, volumes) are modelled as `Rat`; the claims only move
  these values around, never perform float arithmetic on them.
* `time.time()` readings are modelled as an explicit `now : Int` argument
  threaded through the cache and the handlers (the tests drive the clock with
  integer values).
* The Python dict `SimpleCache._cache` is modelled as a function
  `String → Option (value × timestamp)`; `del` and assignment are point
  updates.
* A Python exception is modelled as `PyExn`: its message, and whether the
  exception is an instance of `ccxt.ExchangeError` (which the handler's first
  `except` clause tests).  In the real ccxt library `BadSymbol` is a subclass
  of `ExchangeError` (ccxt/base/errors.py: `BaseError → ExchangeError →
  BadRequest → BadSymbol`), so a `BadSymbol` exception has
  `isExchangeError = true`.
* The upstream client (`EXCHANGE.fetch_ticker` / `EXCHANGE.fetch_ohlcv`) is a
  parameter of the handler: a function from the arguments the handler passes
  to either a raw result or a raised exception.  The outcome record exposes
  which arguments (if any) the handler passed upstream, so "no network call"
  is the statement `fetched = none`.
-/

/-- A raised Python exception: its `str(e)` message and whether it is an
instance of `ccxt.ExchangeError`. -/
structure PyExn where
  isExchangeError : Bool
  message : String
deriving DecidableEq, Repr

/-- Python `str.upper()`: per-character uppercase (the symbols handled here
are ASCII, where Python and Lean agree). -/
def pyUpper (s : String) : String := String.mk (s.data.map Char.toUpper)

/-- Python `str.lower()`: per-character lowercase. -/
def pyLower (s : String) : String := String.mk (s.data.map Char.toLower)

/-- Helper for substring search: does `needle` occur as a contiguous run in
the second list? -/
def charsContain (needle : List Char) : List Char → Bool
  | [] => needle.isEmpty
  | c :: rest => needle.isPrefixOf (c :: rest) || charsContain needle rest

/-- Python `needle in haystack` substring membership, on the char lists. -/
def strContains (needle haystack : String) : Bool :=
  charsContain needle.toList haystack.toList

/-- The HTTP error raised by `raise HTTPException(status_code=..., detail=...)`. -/
structure HTTPError where
  status_code : Nat
  detail : String
deriving DecidableEq, Repr

/-- Source `EXCHANGE_ID = 'binance'` (mcp_server.py line 11). -/
def EXCHANGE_ID : String := "binance"

/-- The opaque `info` payload of a ticker (raw exchange response); the code
only carries it through, so a concrete executable stand-in suffices. -/
abbrev Info : Type := List (String × Int)

/-- Pydantic `TickerResponse` (mcp_server.py lines 16-23). -/
structure TickerResponse where
  symbol : String
  last : Rat
  bid : Rat
  ask : Rat
  timestamp : Int
  info : Info
deriving DecidableEq, Repr

/-- Pydantic `OHLCVData` (mcp_server.py lines 25-32): one candlestick bar. -/
structure OHLCVData where
  timestamp : Int
  «open» : Rat
  high : Rat
  low : Rat
  close : Rat
  volume : Rat
deriving DecidableEq, Repr

/-- Pydantic `OHLCVResponse` (mcp_server.py lines 34-38). -/
structure OHLCVResponse where
  symbol : String
  timeframe : String
  data : List OHLCVData
deriving DecidableEq, Repr

/-- Class `SimpleCache` (mcp_server.py lines 42-68): the dict `_cache` maps a key to
`(data, timestamp)`; `_ttl` is fixed at construction. -/
structure SimpleCache (V : Type) where
  store : String → Option (V × Int)
  ttl : Int

/-- Method `SimpleCache._is_expired` (line 50): `(time.time() - timestamp) > self._ttl`. -/
def SimpleCache.is_expired {V : Type} (c : SimpleCache V) (now tstamp : Int) : Bool :=
  now - tstamp > c.ttl

/-- Method `SimpleCache.get` (lines 52-63).  Returns the value (or `none`) together
with the cache state afterwards (the expired branch executes
`del self._cache[key]`). -/
def SimpleCache.get {V : Type} (c : SimpleCache V) (now : Int) (key : String) :
    Option V × SimpleCache V :=
  match c.store key with
  | some (data, tstamp) =>
      if c.is_expired now tstamp then
        (none, { c with store := fun k => if k = key then none else c.store k })
      else
        (some data, c)
  | none => (none, c)

/-- Method `SimpleCache.set` (lines 65-68): `self._cache[key] = (data, time.time())`. -/
def SimpleCache.set {V : Type} (c : SimpleCache V) (now : Int) (key : String)
    (data : V) : SimpleCache V :=
  { c with store := fun k => if k = key then some (data, now) else c.store k }

/-- A freshly constructed `SimpleCache(ttl_seconds=ttl)`: empty dict. -/
def SimpleCache.empty (V : Type) (ttl : Int) : SimpleCache V :=
  { store := fun _ => none, ttl := ttl }

/-- Global `data_cache = SimpleCache(ttl_seconds=5)` (line 71). -/
def data_cache_ttl : Int := 5

/-- The raw dict returned by `EXCHANGE.fetch_ticker`.  Each field is the
value found under the corresponding dict key, or `none` when the key is
missing (a Python subscript on a missing key raises `KeyError`). -/
structure RawTicker where
  symbol : Option String
  last : Option Rat
  bid : Option Rat
  ask : Option Rat
  timestamp : Option Int
  info : Option Info
deriving DecidableEq, Repr

/-- The field extraction performed by the `TickerResponse(...)` construction
(mcp_server.py lines 104-111): succeeds iff every required key is present. -/
def mapTicker (ticker : RawTicker) : Option TickerResponse := do
  let symbol ← ticker.symbol
  let last ← ticker.last
  let bid ← ticker.bid
  let ask ← ticker.ask
  let timestamp ← ticker.timestamp
  let info ← ticker.info
  pure ⟨symbol, last, bid, ask, timestamp, info⟩

/-- The `KeyError` raised when the `TickerResponse(...)` construction hits a
missing dict key: not a ccxt `ExchangeError`, and its `str(e)` is the quoted
key name (we model the message as the bare key name; no claim inspects it). -/
def mapTickerExn (ticker : RawTicker) : PyExn :=
  if ticker.symbol = none then ⟨false, "symbol"⟩
  else if ticker.last = none then ⟨false, "last"⟩
  else if ticker.bid = none then ⟨false, "bid"⟩
  else if ticker.ask = none then ⟨false, "ask"⟩
  else if ticker.timestamp = none then ⟨false, "timestamp"⟩
  else ⟨false, "info"⟩

/-- The `except` clauses of `get_ticker` (mcp_server.py lines 116-126):
`except ccxt.ExchangeError` is tried first and yields a 500 carrying the
upstream message; otherwise `except Exception` inspects `str(e).lower()` for
the bad-symbol substrings and yields a 404, else a generic 500. -/
def handle_ticker_exn (symbol : String) (e : PyExn) : HTTPError :=
  if e.isExchangeError then
    ⟨500, "Exchange error while fetching ticker for " ++ symbol ++ ": " ++ e.message⟩
  else if strContains "symbol is not supported" (pyLower e.message)
      || strContains "does not exist" (pyLower e.message) then
    ⟨404, "Symbol " ++ symbol ++ " not found on " ++ EXCHANGE_ID⟩
  else
    ⟨500, "An unexpected error occurred: " ++ e.message⟩

/-- The cache key built on mcp_server.py line 94: the f-string
`"ticker:"` followed by the raw path parameter `symbol`. -/
def ticker_cache_key (symbol : String) : String := "ticker:" ++ symbol

/-- Everything observable about one execution of the `/ticker/{symbol}`
handler: the HTTP result, the cache state afterwards, and the argument passed
to `EXCHANGE.fetch_ticker` (`none` when no upstream call was made). -/
structure TickerOutcome where
  result : Except HTTPError TickerResponse
  cacheAfter : SimpleCache TickerResponse
  fetched : Option String

/-- Handler `get_ticker` (mcp_server.py lines 88-126).  `now` is the clock reading
during this request; `fetch_ticker` is the upstream client, returning either
the raw ticker dict or a raised exception.  Python's truthiness test
`if cached_data:` coincides with an `Option` match here because a
`TickerResponse` instance is always truthy. -/
def get_ticker (cache : SimpleCache TickerResponse) (now : Int) (symbol : String)
    (fetch_ticker : String → Except PyExn RawTicker) : TickerOutcome :=
  let cache_key := ticker_cache_key symbol
  match cache.get now cache_key with
  | (some cached_data, c1) => ⟨.ok cached_data, c1, none⟩
  | (none, c1) =>
    match fetch_ticker (pyUpper symbol) with
    | .error e => ⟨.error (handle_ticker_exn symbol e), c1, some (pyUpper symbol)⟩
    | .ok ticker =>
      match mapTicker ticker with
      | none =>
          ⟨.error (handle_ticker_exn symbol (mapTickerExn ticker)), c1, some (pyUpper symbol)⟩
      | some response_data =>
          ⟨.ok response_data, c1.set now cache_key response_data, some (pyUpper symbol)⟩

/-- A raw OHLCV bar from `EXCHANGE.fetch_ohlcv`: a 6-element list
`[timestamp, open, high, low, close, volume]`; field `eᵢ` models `bar[i]`. -/
structure RawBar where
  e0 : Int
  e1 : Rat
  e2 : Rat
  e3 : Rat
  e4 : Rat
  e5 : Rat
deriving DecidableEq, Repr

/-- The `OHLCVData(...)` construction applied to each bar
(mcp_server.py lines 155-162). -/
def mapBar (bar : RawBar) : OHLCVData :=
  ⟨bar.e0, bar.e1, bar.e2, bar.e3, bar.e4, bar.e5⟩

/-- The timeframe whitelist of mcp_server.py line 142. -/
def supported_timeframes : List String := ["1m", "5m", "15m", "1h", "4h", "1d"]

/-- The `except` clauses of `get_ohlcv` (mcp_server.py lines 172-181),
structured exactly like the ticker ones. -/
def handle_ohlcv_exn (symbol : String) (e : PyExn) : HTTPError :=
  if e.isExchangeError then
    ⟨500, "Exchange error while fetching OHLCV for " ++ symbol ++ ": " ++ e.message⟩
  else if strContains "symbol is not supported" (pyLower e.message)
      || strContains "does not exist" (pyLower e.message) then
    ⟨404, "Symbol " ++ symbol ++ " not found on " ++ EXCHANGE_ID⟩
  else
    ⟨500, "An unexpected error occurred: " ++ e.message⟩

/-- Everything observable about one execution of the `/ohlcv/{symbol}`
handler: the HTTP result and the `(symbol, timeframe, limit)` arguments
passed to `EXCHANGE.fetch_ohlcv` (`none` when no upstream call was made).
The handler touches no cache. -/
structure OHLCVOutcome where
  result : Except HTTPError OHLCVResponse
  fetched : Option (String × String × Int)

/-- Handler `get_ohlcv` (mcp_server.py lines 129-181).  The query-parameter defaults
`timeframe="1h"` and `limit=100` of lines 132-133 become Lean default
arguments. -/
def get_ohlcv (symbol : String)
    (fetch_ohlcv : String → String → Int → Except PyExn (List RawBar))
    (timeframe : String := "1h") (limit : Int := 100) : OHLCVOutcome :=
  if limit > 1000 then
    ⟨.error ⟨400, "Limit must not exceed 1000 for performance."⟩, none⟩
  else if (supported_timeframes.contains timeframe) = false then
    ⟨.error ⟨400, "Invalid timeframe. Supported: 1m, 5m, 15m, 1h, 4h, 1d."⟩, none⟩
  else
    match fetch_ohlcv (pyUpper symbol) timeframe limit with
    | .error e =>
        ⟨.error (handle_ohlcv_exn symbol e), some (pyUpper symbol, timeframe, limit)⟩
    | .ok ohlcv_data =>
        ⟨.ok ⟨pyUpper symbol, timeframe, ohlcv_data.map mapBar⟩,
          some (pyUpper symbol, timeframe, limit)⟩

/-! ## Helper lemmas -/

/-- On a cache hit, `get_ticker` returns the cached record, leaves the cache
as `get` left it, and does not call upstream. -/
theorem get_ticker_hit (cache : SimpleCache TickerResponse) (now : Int)
    (symbol : String) (fetch_ticker : String → Except PyExn RawTicker)
    (v : TickerResponse) (c1 : SimpleCache TickerResponse)
    (h : cache.get now (ticker_cache_key symbol) = (some v, c1)) :
    get_ticker cache now symbol fetch_ticker = ⟨.ok v, c1, none⟩ := by
  unfold get_ticker
  simp only [h]

/-- On a cache miss, `get_ticker` proceeds to the fetch-and-map pipeline. -/
theorem get_ticker_miss (cache : SimpleCache TickerResponse) (now : Int)
    (symbol : String) (fetch_ticker : String → Except PyExn RawTicker)
    (c1 : SimpleCache TickerResponse)
    (h : cache.get now (ticker_cache_key symbol) = (none, c1)) :
    get_ticker cache now symbol fetch_ticker =
      match fetch_ticker (pyUpper symbol) with
      | .error e => ⟨.error (handle_ticker_exn symbol e), c1, some (pyUpper symbol)⟩
      | .ok ticker =>
        match mapTicker ticker with
        | none =>
            ⟨.error (handle_ticker_exn symbol (mapTickerExn ticker)), c1,
              some (pyUpper symbol)⟩
        | some r =>
            ⟨.ok r, c1.set now (ticker_cache_key symbol) r, some (pyUpper symbol)⟩ := by
  unfold get_ticker
  simp only [h]

/-! ## Claims -/

/-- C2: `cache.get key` returns the stored value when an entry is present and
`now - insertedAt ≤ ttl` (so the boundary `now - insertedAt = ttl` is a hit,
and a hit has no side effect on the cache); when an entry is present but
`now - insertedAt > ttl` it returns absent and deletes the entry; and for a
key with no entry it returns absent and leaves the cache unchanged. -/
theorem simpleCache_get_spec {V : Type} (c : SimpleCache V) (now : Int) (key : String) :
    (∀ (v : V) (ts : Int), c.store key = some (v, ts) → now - ts ≤ c.ttl →
        c.get now key = (some v, c))
    ∧ (∀ (v : V) (ts : Int), c.store key = some (v, ts) → now - ts > c.ttl →
        (c.get now key).1 = none ∧ ((c.get now key).2).store key = none)
    ∧ (c.store key = none → c.get now key = (none, c)) := by
  refine ⟨?_, ?_, ?_⟩
  · intro v ts hstore hle
    simp [SimpleCache.get, hstore, SimpleCache.is_expired, not_lt.mpr hle]
  · intro v ts hstore hgt
    simp [SimpleCache.get, hstore, SimpleCache.is_expired, hgt]
  · intro hstore
    simp [SimpleCache.get, hstore]

/-- Witness for C2 on a concrete cache (TTL 5, entry set at t=100): a read at
t=105 (boundary) hits, a read at t=106 expires and deletes, and a never-set
key reads absent. -/
theorem simpleCache_get_spec_witness :
    (((SimpleCache.empty Nat 5).set 100 "k" 7).get 105 "k"
        = (some 7, (SimpleCache.empty Nat 5).set 100 "k" 7))
    ∧ (((((SimpleCache.empty Nat 5).set 100 "k" 7).get 106 "k").1 = none)
        ∧ (((((SimpleCache.empty Nat 5).set 100 "k" 7).get 106 "k").2).store "k" = none))
    ∧ ((SimpleCache.empty Nat 5).get 0 "never" = (none, SimpleCache.empty Nat 5)) :=
  ⟨(simpleCache_get_spec ((SimpleCache.empty Nat 5).set 100 "k" 7) 105 "k").1 7 100
      rfl (by decide),
   (simpleCache_get_spec ((SimpleCache.empty Nat 5).set 100 "k" 7) 106 "k").2.1 7 100
      rfl (by decide),
   (simpleCache_get_spec (SimpleCache.empty Nat 5) 0 "never").2.2 rfl⟩

/-- C8: immediately after `set(key, value)` (same clock reading, and the TTL
is non-negative — the deployed cache uses 5), `get(key)` returns the value;
`set` stores the value with the current timestamp unconditionally,
overwriting any prior entry for the key. -/
theorem simpleCache_set_get {V : Type} (c : SimpleCache V) (now : Int)
    (key : String) (v : V) (h : 0 ≤ c.ttl) :
    ((c.set now key v).get now key) = (some v, c.set now key v)
    ∧ (c.set now key v).store key = some (v, now) := by
  constructor
  · simp [SimpleCache.get, SimpleCache.set, SimpleCache.is_expired]
    exact h
  · simp [SimpleCache.set]

/-- Witness for C8, overwriting a prior entry for the same key. -/
theorem simpleCache_set_get_witness :
    ((((SimpleCache.empty Nat 5).set 50 "k" 1).set 100 "k" 2).get 100 "k"
        = (some 2, ((SimpleCache.empty Nat 5).set 50 "k" 1).set 100 "k" 2))
    ∧ (((SimpleCache.empty Nat 5).set 50 "k" 1).set 100 "k" 2).store "k" = some (2, 100) :=
  simpleCache_set_get ((SimpleCache.empty Nat 5).set 50 "k" 1) 100 "k" 2 (by decide)

/-- C5: the OHLCV handler rejects `limit > 1000` with a 400 carrying the
exact limit message, and (when the limit passes) rejects a timeframe outside
the whitelist with a 400 carrying the exact timeframe message; in both cases
`fetched = none`, i.e. no upstream I/O happens. -/
theorem get_ohlcv_validation (symbol timeframe : String) (limit : Int)
    (fetch_ohlcv : String → String → Int → Except PyExn (List RawBar)) :
    (limit > 1000 →
      get_ohlcv symbol fetch_ohlcv timeframe limit
        = ⟨.error ⟨400, "Limit must not exceed 1000 for performance."⟩, none⟩)
    ∧ (limit ≤ 1000 → supported_timeframes.contains timeframe = false →
      get_ohlcv symbol fetch_ohlcv timeframe limit
        = ⟨.error ⟨400, "Invalid timeframe. Supported: 1m, 5m, 15m, 1h, 4h, 1d."⟩, none⟩) := by
  constructor
  · intro hgt
    simp [get_ohlcv, hgt]
  · intro hle htf
    unfold get_ohlcv
    rw [if_neg (not_lt.mpr hle), if_pos htf]

/-- Witness for C5: `limit=1001` and `timeframe="20min"` (the spec's concrete
examples) are both rejected with no fetch. -/
theorem get_ohlcv_validation_witness :
    (get_ohlcv "BTC/USDT" (fun _ _ _ => .ok []) "1h" 1001
        = ⟨.error ⟨400, "Limit must not exceed 1000 for performance."⟩, none⟩)
    ∧ (get_ohlcv "BTC/USDT" (fun _ _ _ => .ok []) "20min" 100
        = ⟨.error ⟨400, "Invalid timeframe. Supported: 1m, 5m, 15m, 1h, 4h, 1d."⟩, none⟩) :=
  ⟨(get_ohlcv_validation "BTC/USDT" "1h" 1001 (fun _ _ _ => .ok [])).1 (by decide),
   (get_ohlcv_validation "BTC/USDT" "20min" 100 (fun _ _ _ => .ok [])).2
      (by decide) (by decide)⟩

/-- C9: the OHLCV handler has no lower bound on `limit`: whenever
`limit ≤ 1000` (zero and negative values included) and the timeframe is
valid, validation passes and the upstream fetch is invoked with exactly that
limit (and the uppercased symbol and given timeframe). -/
theorem get_ohlcv_no_lower_limit_bound (symbol timeframe : String) (limit : Int)
    (fetch_ohlcv : String → String → Int → Except PyExn (List RawBar))
    (hle : limit ≤ 1000) (htf : supported_timeframes.contains timeframe = true) :
    (get_ohlcv symbol fetch_ohlcv timeframe limit).fetched
      = some (pyUpper symbol, timeframe, limit) := by
  unfold get_ohlcv
  rw [if_neg (not_lt.mpr hle), if_neg (by simp [List.mem_of_elem_eq_true htf])]
  cases fetch_ohlcv (pyUpper symbol) timeframe limit <;> rfl

/-- Witness for C9 at `limit = 0` and at the negative `limit = -5`. -/
theorem get_ohlcv_no_lower_limit_bound_witness :
    ((get_ohlcv "BTC/USDT" (fun _ _ _ => .ok []) "1h" 0).fetched
        = some ("BTC/USDT", "1h", 0))
    ∧ ((get_ohlcv "BTC/USDT" (fun _ _ _ => .ok []) "1h" (-5)).fetched
        = some ("BTC/USDT", "1h", -5)) :=
  ⟨get_ohlcv_no_lower_limit_bound "BTC/USDT" "1h" 0 (fun _ _ _ => .ok [])
      (by decide) (by decide),
   get_ohlcv_no_lower_limit_bound "BTC/USDT" "1h" (-5) (fun _ _ _ => .ok [])
      (by decide) (by decide)⟩

/-- C10: omitting the query parameters gives `timeframe = "1h"` and
`limit = 100`; both defaults pass validation, so a request specifying only
the symbol reaches the upstream fetch with exactly those values. -/
theorem get_ohlcv_defaults (symbol : String)
    (fetch_ohlcv : String → String → Int → Except PyExn (List RawBar)) :
    get_ohlcv symbol fetch_ohlcv = get_ohlcv symbol fetch_ohlcv "1h" 100
    ∧ (get_ohlcv symbol fetch_ohlcv).fetched = some (pyUpper symbol, "1h", 100) := by
  refine ⟨rfl, ?_⟩
  unfold get_ohlcv
  rw [if_neg (by decide), if_neg (by decide)]
  cases fetch_ohlcv (pyUpper symbol) "1h" 100 <;> rfl

/-- C6: on a valid OHLCV request whose upstream fetch returns `bars`, the
handler calls upstream (once — the pipeline has a single call site, recorded
in `fetched`), applies no cache, and returns the uppercased symbol, the given
timeframe, and `bars.map mapBar`: same length, same order, and the i-th
response bar is the i-th raw 6-tuple mapped field-by-field
(timestamp/open/high/low/close/volume := elements 1-6). -/
theorem get_ohlcv_success (symbol timeframe : String) (limit : Int)
    (fetch_ohlcv : String → String → Int → Except PyExn (List RawBar))
    (bars : List RawBar)
    (hle : limit ≤ 1000) (htf : supported_timeframes.contains timeframe = true)
    (hfetch : fetch_ohlcv (pyUpper symbol) timeframe limit = .ok bars) :
    (get_ohlcv symbol fetch_ohlcv timeframe limit).fetched
        = some (pyUpper symbol, timeframe, limit)
    ∧ (get_ohlcv symbol fetch_ohlcv timeframe limit).result
        = .ok ⟨pyUpper symbol, timeframe, bars.map mapBar⟩
    ∧ (bars.map mapBar).length = bars.length
    ∧ (∀ i : Nat, (bars.map mapBar)[i]? = (bars[i]?).map mapBar) := by
  have hout : get_ohlcv symbol fetch_ohlcv timeframe limit
      = ⟨.ok ⟨pyUpper symbol, timeframe, bars.map mapBar⟩,
          some (pyUpper symbol, timeframe, limit)⟩ := by
    unfold get_ohlcv
    rw [if_neg (not_lt.mpr hle), if_neg (by simp [List.mem_of_elem_eq_true htf]), hfetch]
  refine ⟨by rw [hout], by rw [hout], List.length_map bars mapBar, ?_⟩
  intro i
  exact List.getElem?_map mapBar bars i

/-- The two raw bars used by the repository's OHLCV test (test_mcp_server.py
`MOCK_OHLCV_DATA`). -/
def MOCK_OHLCV_DATA : List RawBar :=
  [⟨1678886400000, 60000, 60500, 59900, 60400, 10.5⟩,
   ⟨1678890000000, 60400, 60700, 60300, 60650, 8.2⟩]

/-- Witness for C6 on the repository's own two-bar mock data: the fetch is
invoked with ("BTC/USDT", "1h", 2), the response carries both mapped bars in
order, the length matches, the indexwise mapping holds at indices 0 and 1,
and (as in the spec's example) the first response bar's open equals the
first raw bar's second element and the second response bar's volume equals
the second raw bar's sixth element. -/
theorem get_ohlcv_success_witness :
    ((get_ohlcv "BTC/USDT" (fun _ _ _ => .ok MOCK_OHLCV_DATA) "1h" 2).fetched
        = some ("BTC/USDT", "1h", 2))
    ∧ ((get_ohlcv "BTC/USDT" (fun _ _ _ => .ok MOCK_OHLCV_DATA) "1h" 2).result
        = .ok ⟨"BTC/USDT", "1h", MOCK_OHLCV_DATA.map mapBar⟩)
    ∧ (MOCK_OHLCV_DATA.map mapBar).length = MOCK_OHLCV_DATA.length
    ∧ ((MOCK_OHLCV_DATA.map mapBar)[0]? = (MOCK_OHLCV_DATA[0]?).map mapBar)
    ∧ ((MOCK_OHLCV_DATA.map mapBar)[1]? = (MOCK_OHLCV_DATA[1]?).map mapBar)
    ∧ ((MOCK_OHLCV_DATA.map mapBar).map OHLCVData.«open»)[0]?
        = (MOCK_OHLCV_DATA.map RawBar.e1)[0]?
    ∧ ((MOCK_OHLCV_DATA.map mapBar).map OHLCVData.volume)[1]?
        = (MOCK_OHLCV_DATA.map RawBar.e5)[1]? := by
  have h := get_ohlcv_success "BTC/USDT" "1h" 2
    (fun _ _ _ => .ok MOCK_OHLCV_DATA) MOCK_OHLCV_DATA (by decide) (by decide) rfl
  exact ⟨h.1, h.2.1, h.2.2.1, h.2.2.2 0, h.2.2.2 1, rfl, rfl⟩

/-- C7: the ticker handler stores a record in the cache only when the
upstream fetch succeeded and the raw result mapped into the `TickerResponse`
shape; whenever the fetch raises, or the mapping fails on a missing field,
the cache after the handler equals the cache as the initial `get` left it —
no `set` is performed, so a failed fetch never stores an entry. -/
theorem get_ticker_no_cache_write_on_failure
    (cache : SimpleCache TickerResponse) (now : Int) (symbol : String)
    (fetch_ticker : String → Except PyExn RawTicker) :
    (∀ e : PyExn, fetch_ticker (pyUpper symbol) = .error e →
        (get_ticker cache now symbol fetch_ticker).cacheAfter
          = (cache.get now (ticker_cache_key symbol)).2)
    ∧ (∀ raw : RawTicker, fetch_ticker (pyUpper symbol) = .ok raw →
        mapTicker raw = none →
        (get_ticker cache now symbol fetch_ticker).cacheAfter
          = (cache.get now (ticker_cache_key symbol)).2) := by
  constructor
  · intro e hf
    unfold get_ticker
    rcases hget : cache.get now (ticker_cache_key symbol) with ⟨o, c1⟩
    rcases o with _ | v <;> simp [hget, hf]
  · intro raw hf hmap
    unfold get_ticker
    rcases hget : cache.get now (ticker_cache_key symbol) with ⟨o, c1⟩
    rcases o with _ | v <;> simp [hget, hf, hmap]

/-- Witness for C7: with an empty cache, a raising fetch and a fetch whose
raw result is missing the `last` field both leave the cache exactly as the
initial lookup left it. -/
theorem get_ticker_no_cache_write_on_failure_witness :
    ((get_ticker (SimpleCache.empty TickerResponse 5) 0 "BTC/USDT"
        (fun _ => .error ⟨true, "connectivity"⟩)).cacheAfter
      = ((SimpleCache.empty TickerResponse 5).get 0 (ticker_cache_key "BTC/USDT")).2)
    ∧ ((get_ticker (SimpleCache.empty TickerResponse 5) 0 "BTC/USDT"
        (fun _ => .ok ⟨some "BTC/USDT", none, none, none, none, none⟩)).cacheAfter
      = ((SimpleCache.empty TickerResponse 5).get 0 (ticker_cache_key "BTC/USDT")).2) :=
  ⟨(get_ticker_no_cache_write_on_failure (SimpleCache.empty TickerResponse 5) 0
      "BTC/USDT" (fun _ => .error ⟨true, "connectivity"⟩)).1
      ⟨true, "connectivity"⟩ rfl,
   (get_ticker_no_cache_write_on_failure (SimpleCache.empty TickerResponse 5) 0
      "BTC/USDT" (fun _ => .ok ⟨some "BTC/USDT", none, none, none, none, none⟩)).2
      ⟨some "BTC/USDT", none, none, none, none, none⟩ rfl rfl⟩

/-- The raw ticker v1 of the caching test (test_mcp_server.py): last=60000. -/
def rawTickerV1 : RawTicker :=
  ⟨some "ETH/USDT", some 60000, some 64999, some 65001,
   some 1678886400000, some [("a", 1), ("b", 2)]⟩

/-- The raw ticker v2 of the caching test: last=70000. -/
def rawTickerV2 : RawTicker := { rawTickerV1 with last := some 70000 }

/-- The mapped record for `rawTickerV1`. -/
def tickerV1 : TickerResponse :=
  ⟨"ETH/USDT", 60000, 64999, 65001, 1678886400000, [("a", 1), ("b", 2)]⟩

/-- The mapped record for `rawTickerV2`. -/
def tickerV2 : TickerResponse := { tickerV1 with last := 70000 }

/-- Upstream client for the first actual fetch of the caching scenario. -/
def fetchV1 : String → Except PyExn RawTicker := fun _ => .ok rawTickerV1

/-- Upstream client for the second actual fetch of the caching scenario. -/
def fetchV2 : String → Except PyExn RawTicker := fun _ => .ok rawTickerV2

/-- Scenario request 1: t=100, empty TTL-5 cache. -/
def c3_step1 : TickerOutcome :=
  get_ticker (SimpleCache.empty TickerResponse 5) 100 "ETH/USDT" fetchV1

/-- Scenario request 2: t=101 (the upstream now serves v2, so any fetch here
would show). -/
def c3_step2 : TickerOutcome :=
  get_ticker c3_step1.cacheAfter 101 "ETH/USDT" fetchV2

/-- Scenario request 3: t=106, 6s after the entry was stored. -/
def c3_step3 : TickerOutcome :=
  get_ticker c3_step2.cacheAfter 106 "ETH/USDT" fetchV2

/-- Scenario request 4: t=107. -/
def c3_step4 : TickerOutcome :=
  get_ticker c3_step3.cacheAfter 107 "ETH/USDT" fetchV2

/-- C3: in general a cache hit returns the cached record with no upstream
call; and in the TTL-5 scenario, the request at t=100 fetches (count 1) and
stores v1, the request at t=101 is a hit returning v1 with no fetch (count
still 1), the request at t=106 (elapsed 6s > 5s) fetches again (count 2) and
overwrites the cache with v2 (stored at 106), and the request at t=107 is a
hit returning v2 with no fetch (count still 2). -/
theorem get_ticker_cache_scenario :
    (∀ (cache : SimpleCache TickerResponse) (now : Int) (symbol : String)
        (fetch_ticker : String → Except PyExn RawTicker) (v : TickerResponse),
      (cache.get now (ticker_cache_key symbol)).1 = some v →
        (get_ticker cache now symbol fetch_ticker).result = .ok v
        ∧ (get_ticker cache now symbol fetch_ticker).fetched = none)
    ∧ (c3_step1.fetched = some "ETH/USDT" ∧ c3_step1.result = .ok tickerV1
        ∧ c3_step1.cacheAfter.store (ticker_cache_key "ETH/USDT") = some (tickerV1, 100))
    ∧ (c3_step2.fetched = none ∧ c3_step2.result = .ok tickerV1)
    ∧ (c3_step3.fetched = some "ETH/USDT" ∧ c3_step3.result = .ok tickerV2
        ∧ c3_step3.cacheAfter.store (ticker_cache_key "ETH/USDT") = some (tickerV2, 106))
    ∧ (c3_step4.fetched = none ∧ c3_step4.result = .ok tickerV2) := by
  refine ⟨?_, ⟨rfl, rfl, rfl⟩, ⟨rfl, rfl⟩, ⟨rfl, rfl, rfl⟩, ⟨rfl, rfl⟩⟩
  intro cache now symbol fetch_ticker v hv
  rcases hget : cache.get now (ticker_cache_key symbol) with ⟨o, c1⟩
  have ho : o = some v := by simpa [hget] using hv
  subst ho
  rw [get_ticker_hit cache now symbol fetch_ticker v c1 hget]
  exact ⟨rfl, rfl⟩

/-- Witness for C3's general hit clause at the scenario's own t=101 state:
the cache after request 1 holds v1, and a request against it returns v1
without fetching. -/
theorem get_ticker_cache_scenario_witness :
    ((c3_step1.cacheAfter.get 101 (ticker_cache_key "ETH/USDT")).1 = some tickerV1)
    ∧ ((get_ticker c3_step1.cacheAfter 101 "ETH/USDT" fetchV2).result = .ok tickerV1
        ∧ (get_ticker c3_step1.cacheAfter 101 "ETH/USDT" fetchV2).fetched = none) :=
  ⟨rfl, get_ticker_cache_scenario.1 c3_step1.cacheAfter 101 "ETH/USDT" fetchV2
      tickerV1 rfl⟩

/-- A raw BTC ticker used for the case-sensitivity scenario. -/
def rawTickerBTC : RawTicker :=
  ⟨some "BTC/USDT", some 65000, some 64999, some 65001,
   some 1678886400000, some [("a", 1)]⟩

/-- Upstream client for the case-sensitivity scenario. -/
def c4_fetch : String → Except PyExn RawTicker := fun _ => .ok rawTickerBTC

/-- Request 1 of the case-sensitivity scenario: uppercase spelling, t=100. -/
def c4_step1 : TickerOutcome :=
  get_ticker (SimpleCache.empty TickerResponse 5) 100 "BTC/USDT" c4_fetch

/-- Request 2 of the case-sensitivity scenario: lowercase spelling, t=101,
well inside the TTL. -/
def c4_step2 : TickerOutcome :=
  get_ticker c4_step1.cacheAfter 101 "btc/usdt" c4_fetch

/-- Counterexample to C4: the handler does NOT normalize the symbol before
building the cache key — "btc/usdt" and "BTC/USDT" get different cache keys,
and after "BTC/USDT" populated the cache at t=100, the "btc/usdt" request at
t=101 still invokes the upstream fetch instead of hitting the cache. -/
theorem ticker_case_insensitive_counterexample :
    ticker_cache_key "btc/usdt" ≠ ticker_cache_key "BTC/USDT"
    ∧ c4_step1.cacheAfter.store (ticker_cache_key "BTC/USDT") ≠ none
    ∧ c4_step2.fetched = some "BTC/USDT" := by
  refine ⟨by decide, by decide, rfl⟩

/-- C4 amended: the cache key is the deterministic (indeed injective)
function "ticker:" ++ symbol of the RAW, un-normalized symbol; the symbol is
uppercased only for the upstream fetch on a miss.  Hence only requests with
the byte-identical symbol string share a cache entry; spellings differing in
case use distinct keys. -/
theorem ticker_cache_key_uses_raw_symbol
    (cache : SimpleCache TickerResponse) (now : Int) (symbol : String)
    (fetch_ticker : String → Except PyExn RawTicker) :
    ticker_cache_key symbol = "ticker:" ++ symbol
    ∧ (∀ s t : String, ticker_cache_key s = ticker_cache_key t → s = t)
    ∧ ((cache.get now (ticker_cache_key symbol)).1 = none →
        (get_ticker cache now symbol fetch_ticker).fetched = some (pyUpper symbol)) := by
  refine ⟨rfl, ?_, ?_⟩
  · intro s t h
    cases s with
    | mk d1 =>
      cases t with
      | mk d2 =>
        injection h with h2
        exact congrArg String.mk (List.append_cancel_left h2)
  · intro hmiss
    rcases hget : cache.get now (ticker_cache_key symbol) with ⟨o, c1⟩
    have ho : o = none := by simpa [hget] using hmiss
    subst ho
    rw [get_ticker_miss cache now symbol fetch_ticker c1 hget]
    rcases fetch_ticker (pyUpper symbol) with e | ticker
    · rfl
    · rcases hmap : mapTicker ticker with _ | r <;> simp [hmap]

/-- Witness for the amended C4: key shape at "btc/usdt"; key-equality forces
symbol equality at a concrete pair; and a miss on the empty cache fetches
with the uppercased symbol. -/
theorem ticker_cache_key_uses_raw_symbol_witness :
    (ticker_cache_key "btc/usdt" = "ticker:" ++ "btc/usdt")
    ∧ ("btc" : String) = "btc"
    ∧ (get_ticker (SimpleCache.empty TickerResponse 5) 0 "btc/usdt" c4_fetch).fetched
        = some "BTC/USDT" :=
  ⟨(ticker_cache_key_uses_raw_symbol (SimpleCache.empty TickerResponse 5) 0
      "btc/usdt" c4_fetch).1,
   (ticker_cache_key_uses_raw_symbol (SimpleCache.empty TickerResponse 5) 0
      "btc" c4_fetch).2.1 "btc" "btc" rfl,
   (ticker_cache_key_uses_raw_symbol (SimpleCache.empty TickerResponse 5) 0
      "btc/usdt" c4_fetch).2.2 rfl⟩

/-- The exception raised in the repository's own bad-symbol test:
`ccxt.BadSymbol('The symbol XYZ/ABC is not supported')`.  In the ccxt
library `BadSymbol` IS a subclass of `ExchangeError` (hierarchy
`BaseError → ExchangeError → BadRequest → BadSymbol`), so this exception is
caught by the handler's first clause, `except ccxt.ExchangeError`. -/
def badSymbolExn : PyExn := ⟨true, "The symbol XYZ/ABC is not supported"⟩

/-- The `/ticker/XYZ/ABC` request whose upstream fetch raises `badSymbolExn`,
against an empty cache. -/
def c1_out : TickerOutcome :=
  get_ticker (SimpleCache.empty TickerResponse 5) 0 "XYZ/ABC"
    (fun _ => .error badSymbolExn)

/-- C1 (evaluation at the failing input): on a ccxt bad-symbol failure the
code returns the 500 "Exchange error ..." response — not the 404 whose
detail contains "Symbol XYZ/ABC not found" that the claim, the spec and the
repository's test `test_get_ticker_symbol_not_found` require; the 404 branch
(commented "Handle SymbolNotFound, BadSymbol, etc.") is unreachable for ccxt
bad-symbol exceptions because `except ccxt.ExchangeError` is tried first. -/
theorem get_ticker_bad_symbol_bug :
    c1_out.result = .error ⟨500,
      "Exchange error while fetching ticker for XYZ/ABC: The symbol XYZ/ABC is not supported"⟩
    ∧ strContains "Symbol XYZ/ABC not found"
        "Exchange error while fetching ticker for XYZ/ABC: The symbol XYZ/ABC is not supported"
      = false := ⟨rfl, by decide⟩
